import Mathlib

/-!
Verification of the act_props sensor drivers (DPS310 barometric sensor and
ADS1x1x ADC) against their natural-language specification.

The C++ drivers are shallowly embedded: each device is a record of its member
variables, the I2C bus is an oracle mapping register addresses to read
outcomes / write successes, and each public method becomes a pure function
returning its result, the updated device, and the list of bus transactions it
attempted.  Machine integers are modelled as `Nat`/`Int` with explicit
`% 2 ^ w` truncation where the C code truncates; `float` arithmetic in the
compensation formulas is modelled by exact rational arithmetic.  A failed
register read leaves the destination variable with its previous (junk)
content, exactly as in the C code, where the local is uninitialized; the junk
content is part of the bus oracle so that the fall-through behaviour of the
source is captured faithfully.
-/

namespace ActProps

/-- Reinterpret the low 32 bits of a natural number as a signed 32-bit value
(the `int32_t` view of a bit pattern). -/
def toSigned32 (x : Nat) : Int :=
  if x % 2 ^ 32 < 2 ^ 31 then ((x % 2 ^ 32 : Nat) : Int)
  else ((x % 2 ^ 32 : Nat) : Int) - 2 ^ 32

/-- Model of `_DEVICE_::twosComplement` / `DPS310::twosComplement`: sign-extend the low
`bit_length` bits of `raw_value`.  The branch on the sign bit, the `|=` with
the complemented mask `~((1U << bit_length) - 1)` (which equals
`2 ^ 32 - 2 ^ bit_length` as a 32-bit pattern) and the `&=` with the mask in
the positive case follow the source; the `int32_t` result is read back through
`toSigned32`. -/
def twosComplement (raw_value : Nat) (bit_length : Nat) : Int :=
  if Nat.testBit raw_value (bit_length - 1) then
    toSigned32 (raw_value ||| (2 ^ 32 - 2 ^ bit_length))
  else
    toSigned32 (raw_value &&& (2 ^ bit_length - 1))

/-- Model of `bitIsSet` / `hasBitSet`: test whether bit `bit` of `target` is set. -/
def bitIsSet (target : Nat) (bit : Nat) : Bool :=
  (target &&& (1 <<< bit)) != 0

/-- Model of `modifyByte` / `setPattern` (8-bit): overwrite `width` bits of `target`
starting at `position` with `value`; the complement of the mask is taken in
32-bit int arithmetic and the assignment truncates back to 8 bits. -/
def modifyByte (target : Nat) (position : Nat) (value : Nat) (width : Nat) : Nat :=
  ((target &&& (2 ^ 32 - 1 - ((0xFF >>> (8 - width)) <<< position)))
    ||| (value <<< position)) % 2 ^ 8

/-- Model of `setBit` (16-bit): set or clear bit `position` of `target`. -/
def setBit16 (target : Nat) (position : Nat) (value : Nat) : Nat :=
  if value > 0 then (target ||| (1 <<< position)) % 2 ^ 16
  else (target &&& (2 ^ 32 - 1 - (1 <<< position))) % 2 ^ 16

/-- Model of `setPattern` (16-bit): overwrite `width` bits of `target` starting at
`position` with `value`, truncating to 16 bits on assignment. -/
def setPattern16 (target : Nat) (position : Nat) (value : Nat) (width : Nat) : Nat :=
  ((target &&& (2 ^ 32 - 1 - ((0xFFFF >>> (16 - width)) <<< position)))
    ||| (value <<< position)) % 2 ^ 16

/-- Unsigned 32-bit wraparound subtraction, the meaning of
`millis() - _latest_request_time` on `uint32_t`. -/
def wsub32 (a : Nat) (b : Nat) : Nat :=
  (a % 2 ^ 32 + 2 ^ 32 - b % 2 ^ 32) % 2 ^ 32

/-- A bus transaction attempted by a driver method: a register read or a
register write of a value. -/
inductive BusOp where
  | readOp (reg : Nat)
  | writeOp (reg : Nat) (val : Nat)
deriving DecidableEq, Repr

/-- The I2C bus oracle: `read reg` yields `some byte-or-word` on success and
`none` when the transaction fails; `write reg` tells whether a write
transaction to `reg` succeeds; `junk reg` is the residual content of the
uninitialized local variable into which `reg` would have been read, used when
the read fails (the C code leaves the local untouched). -/
structure Bus where
  read : Nat → Option Nat
  write : Nat → Bool
  junk : Nat → Nat

namespace DPS310

/-- Model of `DPS310::State`. -/
inductive State where
  | WAIT_SETUP
  | WAIT_BEGIN
  | IDLE
  | TEMP_BUSY
  | TEMP_COMPLETE
  | TEMP_ERROR
  | PRES_BUSY
  | PRES_COMPLETE
  | PRES_ERROR
  | AVAILABLE
deriving DecidableEq, Repr

/-- Model of `DPS310::Result`. -/
inductive Result where
  | SUCCESS
  | FAILED_NOT_RESPONDING
  | FAILED_BUSY
  | FAILED_UNKNOWN
deriving DecidableEq, Repr, Fintype

/-- Model of `DPS310::SamplingRate`. -/
inductive SamplingRate where
  | SAMPLING_1HZ
  | SAMPLING_2HZ
  | SAMPLING_4HZ
  | SAMPLING_8HZ
  | SAMPLING_16HZ
  | SAMPLING_32HZ
  | SAMPLING_64HZ
  | SAMPLING_128HZ
deriving DecidableEq, Repr

/-- Model of `DPS310::Precision` (oversampling levels). -/
inductive Precision where
  | LOW_1X
  | LOW_2X
  | LOW_4X
  | LOW_8X
  | STANDARD_16X
  | HIGH_32X
  | HIGH_64X
  | HIGH_128X
deriving DecidableEq, Repr

/-- Model of `DPS310::TemperatureSource`. -/
inductive TemperatureSource where
  | ASIC_LOW_POWER
  | MEMS_HIGH_PRECISION
deriving DecidableEq, Repr

/-- Model of `DPS310::OperationMode`. -/
inductive OperationMode where
  | STANDBY
  | ONE_SHOT_PRESSURE
  | ONE_SHOT_TEMPERATURE
  | CONTINUOUS_PRESSURE
  | CONTINUOUS_TEMPERATURE
  | CONTINUOUS_PRESSURE_AND_TEMPERATURE
deriving DecidableEq, Repr

/-- Numeric value of an `OperationMode` (the MEAS_CTRL bit pattern). -/
def OperationMode.use : OperationMode → Nat
  | .STANDBY => 0b000
  | .ONE_SHOT_PRESSURE => 0b001
  | .ONE_SHOT_TEMPERATURE => 0b010
  | .CONTINUOUS_PRESSURE => 0b101
  | .CONTINUOUS_TEMPERATURE => 0b110
  | .CONTINUOUS_PRESSURE_AND_TEMPERATURE => 0b111

/-- Model of `DPS310::getScaleFactorFor`: compensation scale factor per precision.
The source returns these integral values as `float`; they are modelled
exactly in `ℚ`. -/
def getScaleFactorFor : Precision → ℚ
  | .LOW_1X => 524288
  | .LOW_2X => 1572864
  | .LOW_4X => 3670016
  | .LOW_8X => 7864320
  | .STANDARD_16X => 253952
  | .HIGH_32X => 516096
  | .HIGH_64X => 1040384
  | .HIGH_128X => 2088960

/-- Model of `DPS310::getMeasurementTimeFor`: measurement time (ms) per precision. -/
def getMeasurementTimeFor : Precision → Nat
  | .LOW_1X => 4
  | .LOW_2X => 6
  | .LOW_4X => 9
  | .LOW_8X => 15
  | .STANDARD_16X => 28
  | .HIGH_32X => 54
  | .HIGH_64X => 105
  | .HIGH_128X => 207

/-- Model of `DPS310::Settings`. -/
structure Settings where
  temperature_sampling_rate : SamplingRate
  temperature_precision : Precision
  temperature_source : TemperatureSource
  pressure_sampling_rate : SamplingRate
  pressure_precision : Precision
deriving DecidableEq, Repr

/-- The `_coef` member: calibration coefficients (signed). -/
structure Coef where
  c0 : Int
  c1 : Int
  c00 : Int
  c10 : Int
  c01 : Int
  c11 : Int
  c20 : Int
  c21 : Int
  c30 : Int
deriving DecidableEq, Repr

/-- The `_values` member: latest raw-scaled and compensated readings
(`float` in the source, modelled as exact rationals). -/
structure Values where
  t_raw_scaled : ℚ
  temperature : ℚ
  p_raw_scaled : ℚ
  pressure : ℚ
deriving DecidableEq, Repr

/-- The DPS310 device object: its state, last error, address, settings,
calibration coefficients and latest values. -/
structure Device where
  state : State
  error : Result
  address : Nat
  settings : Settings
  coef : Coef
  values : Values
deriving DecidableEq, Repr

/-- Register address `DPS310::Register::PRS_B2`. -/
def regPRS_B2 : Nat := 0x00

/-- Register address `DPS310::Register::PRS_B1`. -/
def regPRS_B1 : Nat := 0x01

/-- Register address `DPS310::Register::PRS_B0`. -/
def regPRS_B0 : Nat := 0x02

/-- Register address `DPS310::Register::TMP_B2`. -/
def regTMP_B2 : Nat := 0x03

/-- Register address `DPS310::Register::TMP_B1`. -/
def regTMP_B1 : Nat := 0x04

/-- Register address `DPS310::Register::TMP_B0`. -/
def regTMP_B0 : Nat := 0x05

/-- Register address `DPS310::Register::MEAS_CFG`. -/
def regMEAS_CFG : Nat := 0x08

/-- Bit position `DPS310::MEAS_CFG::TMP_RDY`. -/
def bitTMP_RDY : Nat := 5

/-- Bit position `DPS310::MEAS_CFG::PRS_RDY`. -/
def bitPRS_RDY : Nat := 4

/-- Bit position `DPS310::MEAS_CFG::MEAS_CTRL0`. -/
def bitMEAS_CTRL0 : Nat := 0

/-- Model of `setError`: record the last error cause (the message buffer is not
modelled; it carries no control flow). -/
def setError (d : Device) (cause : Result) : Device :=
  { d with error := cause }

/-- Model of `setAs` / `set`: force the state machine into a given state. -/
def setAs (d : Device) (s : State) : Device :=
  { d with state := s }

/-- Model of `DPS310::readByte`: read one byte from `reg`.  On success the byte
replaces the destination variable; on failure the destination keeps its
previous content `cur` and the error is recorded as FAILED_NOT_RESPONDING. -/
def readByte (bus : Bus) (d : Device) (reg : Nat) (cur : Nat) :
    Result × Device × Nat :=
  match bus.read reg with
  | some b => (Result.SUCCESS, d, b)
  | none => (Result.FAILED_NOT_RESPONDING,
      setError d Result.FAILED_NOT_RESPONDING, cur)

/-- Model of `DPS310::writeByte`: write one byte to `reg`. -/
def writeByte (bus : Bus) (d : Device) (reg : Nat) (src : Nat) :
    Result × Device :=
  if bus.write reg then (Result.SUCCESS, d)
  else (Result.FAILED_NOT_RESPONDING, setError d Result.FAILED_NOT_RESPONDING)

/-- Model of `DPS310::applyOperationMode`: read MEAS_CFG, overwrite the 3 MEAS_CTRL
bits with the mode, write it back; on any failure return `_error` without the
remaining steps. -/
def applyOperationMode (bus : Bus) (d : Device) (mode : OperationMode) :
    Result × Device × List BusOp :=
  match bus.read regMEAS_CFG with
  | none =>
      let d1 := setError d Result.FAILED_NOT_RESPONDING
      (d1.error, d1, [BusOp.readOp regMEAS_CFG])
  | some meas_cfg =>
      let meas_cfg2 := modifyByte meas_cfg bitMEAS_CTRL0 mode.use 3
      if bus.write regMEAS_CFG then
        (Result.SUCCESS, d,
          [BusOp.readOp regMEAS_CFG, BusOp.writeOp regMEAS_CFG meas_cfg2])
      else
        let d1 := setError d Result.FAILED_NOT_RESPONDING
        (d1.error, d1,
          [BusOp.readOp regMEAS_CFG, BusOp.writeOp regMEAS_CFG meas_cfg2])

/-- Model of `DPS310::update`: one tick of the measurement state machine, returning
the updated device and the bus transactions attempted during the tick. -/
def update (bus : Bus) (d : Device) : Device × List BusOp :=
  match d.state with
  | State.TEMP_BUSY =>
      let r := readByte bus d regMEAS_CFG (bus.junk regMEAS_CFG)
      let d1 := if r.1 ≠ Result.SUCCESS then setAs r.2.1 State.TEMP_ERROR else r.2.1
      let meas_cfg := r.2.2
      let d2 := if bitIsSet meas_cfg bitTMP_RDY then setAs d1 State.TEMP_COMPLETE else d1
      (d2, [BusOp.readOp regMEAS_CFG])
  | State.TEMP_COMPLETE =>
      let r1 := readByte bus d regTMP_B2 (bus.junk regTMP_B2)
      let dA := if r1.1 ≠ Result.SUCCESS then setAs r1.2.1 State.TEMP_ERROR else r1.2.1
      let temp_msb := r1.2.2
      let r2 := readByte bus dA regTMP_B1 (bus.junk regTMP_B1)
      let dB := if r2.1 ≠ Result.SUCCESS then setAs r2.2.1 State.TEMP_ERROR else r2.2.1
      let temp_mid := r2.2.2
      let r3 := readByte bus dB regTMP_B0 (bus.junk regTMP_B0)
      let dC := if r3.1 ≠ Result.SUCCESS then setAs r3.2.1 State.TEMP_ERROR else r3.2.1
      let temp_lsb := r3.2.2
      let tmp_reg : Int :=
        twosComplement ((temp_msb <<< 16) ||| (temp_mid <<< 8) ||| temp_lsb) 24
      let t_raw_scaled : ℚ :=
        (tmp_reg : ℚ) / getScaleFactorFor d.settings.temperature_precision
      let temperature : ℚ :=
        (1 / 2 : ℚ) * (d.coef.c0 : ℚ) + (d.coef.c1 : ℚ) * t_raw_scaled
      let dD := { dC with values :=
        { dC.values with t_raw_scaled := t_raw_scaled, temperature := temperature } }
      let dE := setAs dD State.PRES_BUSY
      let ap := applyOperationMode bus dE OperationMode.ONE_SHOT_PRESSURE
      let dF := if ap.1 ≠ Result.SUCCESS then setAs ap.2.1 State.PRES_ERROR else ap.2.1
      (dF, BusOp.readOp regTMP_B2 :: BusOp.readOp regTMP_B1 ::
        BusOp.readOp regTMP_B0 :: ap.2.2)
  | State.TEMP_ERROR => (setAs d State.IDLE, [])
  | State.PRES_BUSY =>
      let r := readByte bus d regMEAS_CFG (bus.junk regMEAS_CFG)
      let d1 := if r.1 ≠ Result.SUCCESS then setAs r.2.1 State.PRES_ERROR else r.2.1
      let meas_cfg := r.2.2
      let d2 := if bitIsSet meas_cfg bitPRS_RDY then setAs d1 State.PRES_COMPLETE else d1
      (d2, [BusOp.readOp regMEAS_CFG])
  | State.PRES_COMPLETE =>
      let r1 := readByte bus d regPRS_B2 (bus.junk regPRS_B2)
      let dA := if r1.1 ≠ Result.SUCCESS then setAs r1.2.1 State.PRES_ERROR else r1.2.1
      let pres_msb := r1.2.2
      let r2 := readByte bus dA regPRS_B1 (bus.junk regPRS_B1)
      let dB := if r2.1 ≠ Result.SUCCESS then setAs r2.2.1 State.PRES_ERROR else r2.2.1
      let pres_mid := r2.2.2
      let r3 := readByte bus dB regPRS_B0 (bus.junk regPRS_B0)
      let dC := if r3.1 ≠ Result.SUCCESS then setAs r3.2.1 State.PRES_ERROR else r3.2.1
      let pres_lsb := r3.2.2
      let prs_reg : Int :=
        twosComplement ((pres_msb <<< 16) ||| (pres_mid <<< 8) ||| pres_lsb) 24
      let p_raw_scaled : ℚ :=
        (prs_reg : ℚ) / getScaleFactorFor d.settings.pressure_precision
      let a : ℚ := (d.coef.c00 : ℚ)
      let b : ℚ := p_raw_scaled
        * ((d.coef.c10 : ℚ)
          + p_raw_scaled * ((d.coef.c20 : ℚ) + p_raw_scaled * (d.coef.c30 : ℚ)))
      let c : ℚ := dC.values.t_raw_scaled
        * ((d.coef.c01 : ℚ)
          + p_raw_scaled * ((d.coef.c11 : ℚ) + p_raw_scaled * (d.coef.c21 : ℚ)))
      let pressure : ℚ := (a + b + c) / 100
      let dD := { dC with values :=
        { dC.values with p_raw_scaled := p_raw_scaled, pressure := pressure } }
      (setAs dD State.AVAILABLE,
        [BusOp.readOp regPRS_B2, BusOp.readOp regPRS_B1, BusOp.readOp regPRS_B0])
  | State.PRES_ERROR => (setAs d State.IDLE, [])
  | _ => (d, [])

/-- Model of `DPS310::request`: only legal from IDLE; triggers the one-shot
temperature conversion and moves to TEMP_BUSY. -/
def request (bus : Bus) (d : Device) : Result × Device × List BusOp :=
  if d.state ≠ State.IDLE then
    let d1 := setError d Result.FAILED_BUSY
    (d1.error, d1, [])
  else
    let ap := applyOperationMode bus d OperationMode.ONE_SHOT_TEMPERATURE
    if ap.1 ≠ Result.SUCCESS then (ap.2.1.error, ap.2.1, ap.2.2)
    else (Result.SUCCESS, setAs ap.2.1 State.TEMP_BUSY, ap.2.2)

/-- Model of `DPS310::read`: only legal from AVAILABLE; copies the latest temperature
and pressure into the caller's output variables (passed in as their previous
contents) and moves back to IDLE. -/
def read (d : Device) (temperature : ℚ) (pressure : ℚ) :
    Result × Device × ℚ × ℚ :=
  if d.state ≠ State.AVAILABLE then
    let d1 := setError d Result.FAILED_BUSY
    (d1.error, d1, temperature, pressure)
  else
    (Result.SUCCESS, setAs d State.IDLE, d.values.temperature, d.values.pressure)

/-- Model of `DPS310::available`. -/
def available (d : Device) : Bool :=
  d.state == State.AVAILABLE

/-- Model of `operator&&` on `DPS310::Result`. -/
def resultAnd (lhs : Result) (rhs : Result) : Result :=
  if lhs = Result.SUCCESS ∧ rhs = Result.SUCCESS then Result.SUCCESS
  else Result.FAILED_UNKNOWN

/-- Model of `operator||` on `DPS310::Result`. -/
def resultOr (lhs : Result) (rhs : Result) : Result :=
  if lhs = Result.SUCCESS ∨ rhs = Result.SUCCESS then Result.SUCCESS
  else Result.FAILED_UNKNOWN

end DPS310

namespace ADS1x1x

/-- Model of `ADS1x1x::State`. -/
inductive State where
  | WAIT_SETUP
  | WAIT_BEGIN
  | IDLE
  | BUSY
  | COMPLETE
  | ERROR
  | AVAILABLE
deriving DecidableEq, Repr

/-- Model of `ADS1x1x::Result`. -/
inductive Result where
  | SUCCESS
  | FAILED_NOT_RESPONDING
  | FAILED_BUSY
  | FAILED_UNKNOWN
deriving DecidableEq, Repr, Fintype

/-- Model of `ADS1x1x::DeviceType`: 12-bit ADS101x or 16-bit ADS111x. -/
inductive DeviceType where
  | ADS101x
  | ADS111x
deriving DecidableEq, Repr

/-- Model of `ADS1x1x::ChannelConfig`: the 8 input multiplexer configurations. -/
inductive ChannelConfig where
  | AIN0_AIN1
  | AIN0_AIN3
  | AIN1_AIN3
  | AIN2_AIN3
  | AIN0_GND
  | AIN1_GND
  | AIN2_GND
  | AIN3_GND
deriving DecidableEq, Repr

/-- The 3-bit CONF_MUX pattern selected for a channel configuration in
`ADS1x1x::request`. -/
def ChannelConfig.muxBits : ChannelConfig → Nat
  | .AIN0_AIN1 => 0b000
  | .AIN0_AIN3 => 0b001
  | .AIN1_AIN3 => 0b010
  | .AIN2_AIN3 => 0b011
  | .AIN0_GND => 0b100
  | .AIN1_GND => 0b101
  | .AIN2_GND => 0b110
  | .AIN3_GND => 0b111

/-- Model of `ADS1x1x::FullScaleRange`. -/
inductive FullScaleRange where
  | FSR_6144mV
  | FSR_4096mV
  | FSR_2048mV
  | FSR_1024mV
  | FSR_0512mV
  | FSR_0256mV
deriving DecidableEq, Repr

/-- Numeric value (mV) of a `FullScaleRange`. -/
def FullScaleRange.use : FullScaleRange → Nat
  | .FSR_6144mV => 6144
  | .FSR_4096mV => 4096
  | .FSR_2048mV => 2048
  | .FSR_1024mV => 1024
  | .FSR_0512mV => 512
  | .FSR_0256mV => 256

/-- Model of `ADS1x1x::DataRate`. -/
inductive DataRate where
  | DR_0008SPS
  | DR_0016SPS
  | DR_0032SPS
  | DR_0064SPS
  | DR_0128SPS
  | DR_0250SPS
  | DR_0475SPS
  | DR_0490SPS
  | DR_0860SPS
  | DR_0920SPS
  | DR_1600SPS
  | DR_2400SPS
  | DR_3300SPS
deriving DecidableEq, Repr

/-- Numeric value (samples per second) of a `DataRate`. -/
def DataRate.use : DataRate → Nat
  | .DR_0008SPS => 8
  | .DR_0016SPS => 16
  | .DR_0032SPS => 32
  | .DR_0064SPS => 64
  | .DR_0128SPS => 128
  | .DR_0250SPS => 250
  | .DR_0475SPS => 475
  | .DR_0490SPS => 490
  | .DR_0860SPS => 860
  | .DR_0920SPS => 920
  | .DR_1600SPS => 1600
  | .DR_2400SPS => 2400
  | .DR_3300SPS => 3300

/-- Model of `ADS1x1x::getConversionDelay`: `(1000 + rate - 1) / rate` milliseconds. -/
def getConversionDelay (dr : DataRate) : Nat :=
  (1000 + dr.use - 1) / dr.use

/-- Model of `ADS1x1x::Settings`. -/
structure Settings where
  channel_config : ChannelConfig
  full_scale_range : FullScaleRange
  data_rate : DataRate
deriving DecidableEq, Repr

/-- The `_values` member: latest raw counts and millivolt value (both
`uint16_t`). -/
structure Values where
  raw : Nat
  voltage : Nat
deriving DecidableEq, Repr

/-- The ADS1x1x device object. -/
structure Device where
  state : State
  error : Result
  address : Nat
  device_type : DeviceType
  settings : Settings
  latest_request_time : Nat
  values : Values
deriving DecidableEq, Repr

/-- Register address `ADS1x1x::Register::CONVERSION_REGISTER`. -/
def regCONVERSION : Nat := 0x00

/-- Register address `ADS1x1x::Register::CONFIG_REGISTER`. -/
def regCONFIG : Nat := 0x01

/-- Bit position `ADS1x1x::CONFIG_REGISTER::CONF_OS`. -/
def bitCONF_OS : Nat := 15

/-- Bit position `ADS1x1x::CONFIG_REGISTER::CONF_MUX0`. -/
def bitCONF_MUX0 : Nat := 12

/-- Model of `setError`: record the last error cause. -/
def setError (d : Device) (cause : Result) : Device :=
  { d with error := cause }

/-- Model of `set`: force the state machine into a given state. -/
def setAs (d : Device) (s : State) : Device :=
  { d with state := s }

/-- Model of `ADS1x1x::read` (16-bit register overload): read one big-endian word; on
failure the destination keeps its previous content `cur`. -/
def readWord (bus : Bus) (d : Device) (reg : Nat) (cur : Nat) :
    Result × Device × Nat :=
  match bus.read reg with
  | some w => (Result.SUCCESS, d, w)
  | none => (Result.FAILED_NOT_RESPONDING,
      setError d Result.FAILED_NOT_RESPONDING, cur)

/-- Model of `ADS1x1x::write`: write a word to `reg`. -/
def writeWord (bus : Bus) (d : Device) (reg : Nat) (src : Nat) :
    Result × Device :=
  if bus.write reg then (Result.SUCCESS, d)
  else (Result.FAILED_NOT_RESPONDING, setError d Result.FAILED_NOT_RESPONDING)

/-- Model of `ADS1x1x::update`: one tick of the conversion state machine, given the
current `millis()` value `now`; returns the updated device and the attempted
bus transactions. -/
def update (bus : Bus) (now : Nat) (d : Device) : Device × List BusOp :=
  match d.state with
  | State.BUSY =>
      if getConversionDelay d.settings.data_rate ≤
          wsub32 now d.latest_request_time then
        ({ setAs d State.COMPLETE with latest_request_time := 0 }, [])
      else
        (d, [])
  | State.COMPLETE =>
      let r := readWord bus d regCONVERSION (bus.junk regCONVERSION)
      let d1 := if r.1 ≠ Result.SUCCESS then setAs r.2.1 State.ERROR else r.2.1
      let conv_reg := r.2.2
      let d2 :=
        match d.device_type with
        | DeviceType.ADS101x =>
            let raw := conv_reg >>> 4
            let voltage := raw * d.settings.full_scale_range.use / 0x7FF % 2 ^ 16
            { d1 with values := { raw := raw, voltage := voltage } }
        | DeviceType.ADS111x =>
            let raw := conv_reg
            let voltage := raw * d.settings.full_scale_range.use / 0x7FFF % 2 ^ 16
            { d1 with values := { raw := raw, voltage := voltage } }
      (setAs d2 State.AVAILABLE, [BusOp.readOp regCONVERSION])
  | State.ERROR => (setAs d State.IDLE, [])
  | _ => (d, [])

/-- Model of `ADS1x1x::request`: only legal from IDLE; sets the start-conversion bit
and the multiplexer bits in CONFIG_REGISTER, records `millis()` and moves to
BUSY.  The timestamp is recorded only after the register write succeeded. -/
def request (bus : Bus) (now : Nat) (d : Device)
    (channel_config : ChannelConfig) : Result × Device × List BusOp :=
  if d.state ≠ State.IDLE then
    let d1 := setError d Result.FAILED_BUSY
    (d1.error, d1, [])
  else
    match bus.read regCONFIG with
    | none =>
        let d1 := setError d Result.FAILED_NOT_RESPONDING
        (d1.error, d1, [BusOp.readOp regCONFIG])
    | some config_reg =>
        let c1 := setBit16 config_reg bitCONF_OS 1
        let c2 := setPattern16 c1 bitCONF_MUX0 channel_config.muxBits 3
        if bus.write regCONFIG then
          (Result.SUCCESS,
            { setAs d State.BUSY with latest_request_time := now },
            [BusOp.readOp regCONFIG, BusOp.writeOp regCONFIG c2])
        else
          let d1 := setError d Result.FAILED_NOT_RESPONDING
          (d1.error, d1,
            [BusOp.readOp regCONFIG, BusOp.writeOp regCONFIG c2])

/-- Model of `ADS1x1x::read` (public): only legal from AVAILABLE; copies the latest
voltage into the caller's output variable (passed in as its previous
content) and moves back to IDLE. -/
def read (d : Device) (voltage : Nat) : Result × Device × Nat :=
  if d.state ≠ State.AVAILABLE then
    let d1 := setError d Result.FAILED_BUSY
    (d1.error, d1, voltage)
  else
    (Result.SUCCESS, setAs d State.IDLE, d.values.voltage)

/-- Model of `ADS1x1x::available`. -/
def available (d : Device) : Bool :=
  d.state == State.AVAILABLE

/-- Model of `operator&&` on `ADS1x1x::Result`. -/
def resultAnd (lhs : Result) (rhs : Result) : Result :=
  if lhs = Result.SUCCESS ∧ rhs = Result.SUCCESS then Result.SUCCESS
  else Result.FAILED_UNKNOWN

/-- Model of `operator||` on `ADS1x1x::Result`. -/
def resultOr (lhs : Result) (rhs : Result) : Result :=
  if lhs = Result.SUCCESS ∨ rhs = Result.SUCCESS then Result.SUCCESS
  else Result.FAILED_UNKNOWN

end ADS1x1x

/-- A bus on which every transaction succeeds (reads return 0). -/
def busAllOk : Bus :=
  { read := fun _ => some 0, write := fun _ => true, junk := fun _ => 0 }

/-- A bus on which every read transaction fails and the uninitialized local
that would have received the byte happens to hold the residual value `0x30`
(both the TMP_RDY bit 5 and the PRS_RDY bit 4 set). -/
def busStatusReadFails : Bus :=
  { read := fun _ => none, write := fun _ => true, junk := fun _ => 0x30 }

/-- A bus on which every read transaction fails and the uninitialized local
happens to hold 0. -/
def busCleanReadFails : Bus :=
  { read := fun _ => none, write := fun _ => true, junk := fun _ => 0 }

/-- A bus on which every write fails (reads return 0). -/
def busWriteFails : Bus :=
  { read := fun _ => some 0, write := fun _ => false, junk := fun _ => 0 }

/-- A bus delivering fixed raw temperature and pressure bytes. -/
def busBytes : Bus :=
  { read := fun reg =>
      if reg = DPS310.regTMP_B2 then some 0x12 else
      if reg = DPS310.regTMP_B1 then some 0x34 else
      if reg = DPS310.regTMP_B0 then some 0x56 else
      if reg = DPS310.regPRS_B2 then some 0xFE else
      if reg = DPS310.regPRS_B1 then some 0xDC else
      if reg = DPS310.regPRS_B0 then some 0xBA else some 0,
    write := fun _ => true, junk := fun _ => 0 }

/-- A sample DPS310 device in a given state, with realistic calibration
coefficients and a retained scaled raw temperature. -/
def dpsSample (s : DPS310.State) : DPS310.Device :=
  { state := s
    error := DPS310.Result.FAILED_UNKNOWN
    address := 0x77
    settings :=
      { temperature_sampling_rate := DPS310.SamplingRate.SAMPLING_1HZ
        temperature_precision := DPS310.Precision.LOW_1X
        temperature_source := DPS310.TemperatureSource.MEMS_HIGH_PRECISION
        pressure_sampling_rate := DPS310.SamplingRate.SAMPLING_1HZ
        pressure_precision := DPS310.Precision.LOW_2X }
    coef :=
      { c0 := 210, c1 := -286, c00 := 81300, c10 := -57512, c01 := -2389
        c11 := 1273, c20 := -10923, c21 := 86, c30 := -380 }
    values :=
      { t_raw_scaled := 1 / 4, temperature := 21, p_raw_scaled := 0
        pressure := 1013 } }

/-- A sample ADS1x1x device in a given state (12-bit variant, 128 SPS,
request timestamp 100 ms). -/
def adsSample (s : ADS1x1x.State) : ADS1x1x.Device :=
  { state := s
    error := ADS1x1x.Result.FAILED_UNKNOWN
    address := 0x48
    device_type := ADS1x1x.DeviceType.ADS101x
    settings :=
      { channel_config := ADS1x1x.ChannelConfig.AIN0_AIN1
        full_scale_range := ADS1x1x.FullScaleRange.FSR_2048mV
        data_rate := ADS1x1x.DataRate.DR_0128SPS }
    latest_request_time := 100
    values := { raw := 0x123, voltage := 145 } }

/-- Model of `DPS310::applyOperationMode` never changes the state field: it only
performs register I/O and records errors. -/
theorem applyOperationMode_state (bus : Bus) (d : DPS310.Device)
    (m : DPS310.OperationMode) :
    (DPS310.applyOperationMode bus d m).2.1.state = d.state := by
  unfold DPS310.applyOperationMode
  cases bus.read DPS310.regMEAS_CFG <;>
    simp [DPS310.setError] <;> split <;> simp [DPS310.setError]

/-- Model of `DPS310::applyOperationMode` never changes the latest values. -/
theorem applyOperationMode_values (bus : Bus) (d : DPS310.Device)
    (m : DPS310.OperationMode) :
    (DPS310.applyOperationMode bus d m).2.1.values = d.values := by
  unfold DPS310.applyOperationMode
  cases bus.read DPS310.regMEAS_CFG <;>
    simp [DPS310.setError] <;> split <;> simp [DPS310.setError]

/-- Claim C2: for both devices, calling `request()` in any state other than
IDLE returns FAILED_BUSY, performs no bus register transactions at all, and
leaves the device state unchanged (so at most one measurement cycle can be in
flight per device). -/
theorem claim_C2 (busP : Bus) (busA : Bus) (now : Nat)
    (cc : ADS1x1x.ChannelConfig) (dP : DPS310.Device) (dA : ADS1x1x.Device)
    (hP : dP.state ≠ DPS310.State.IDLE) (hA : dA.state ≠ ADS1x1x.State.IDLE) :
    ((DPS310.request busP dP).1 = DPS310.Result.FAILED_BUSY
      ∧ (DPS310.request busP dP).2.2 = []
      ∧ (DPS310.request busP dP).2.1.state = dP.state
      ∧ (DPS310.request busP dP).2.1
          = DPS310.setError dP DPS310.Result.FAILED_BUSY)
    ∧ ((ADS1x1x.request busA now dA cc).1 = ADS1x1x.Result.FAILED_BUSY
      ∧ (ADS1x1x.request busA now dA cc).2.2 = []
      ∧ (ADS1x1x.request busA now dA cc).2.1.state = dA.state
      ∧ (ADS1x1x.request busA now dA cc).2.1
          = ADS1x1x.setError dA ADS1x1x.Result.FAILED_BUSY) := by
  constructor
  · simp [DPS310.request, hP, DPS310.setError]
  · simp [ADS1x1x.request, hA, ADS1x1x.setError]

/-- Closed witness for claim C2, at devices sitting in TEMP_BUSY / BUSY. -/
theorem claim_C2_witness :
    ((dpsSample DPS310.State.TEMP_BUSY).state ≠ DPS310.State.IDLE
      ∧ (adsSample ADS1x1x.State.BUSY).state ≠ ADS1x1x.State.IDLE)
    ∧ ((DPS310.request busAllOk (dpsSample DPS310.State.TEMP_BUSY)).1
          = DPS310.Result.FAILED_BUSY
      ∧ (DPS310.request busAllOk (dpsSample DPS310.State.TEMP_BUSY)).2.2 = []
      ∧ (ADS1x1x.request busAllOk 0 (adsSample ADS1x1x.State.BUSY)
            ADS1x1x.ChannelConfig.AIN0_AIN1).1 = ADS1x1x.Result.FAILED_BUSY
      ∧ (ADS1x1x.request busAllOk 0 (adsSample ADS1x1x.State.BUSY)
            ADS1x1x.ChannelConfig.AIN0_AIN1).2.2 = []) :=
  ⟨⟨by decide, by decide⟩,
    ((claim_C2 busAllOk busAllOk 0 ADS1x1x.ChannelConfig.AIN0_AIN1
        (dpsSample DPS310.State.TEMP_BUSY) (adsSample ADS1x1x.State.BUSY)
        (by decide) (by decide)).1.1),
    ((claim_C2 busAllOk busAllOk 0 ADS1x1x.ChannelConfig.AIN0_AIN1
        (dpsSample DPS310.State.TEMP_BUSY) (adsSample ADS1x1x.State.BUSY)
        (by decide) (by decide)).1.2.1),
    ((claim_C2 busAllOk busAllOk 0 ADS1x1x.ChannelConfig.AIN0_AIN1
        (dpsSample DPS310.State.TEMP_BUSY) (adsSample ADS1x1x.State.BUSY)
        (by decide) (by decide)).2.1),
    ((claim_C2 busAllOk busAllOk 0 ADS1x1x.ChannelConfig.AIN0_AIN1
        (dpsSample DPS310.State.TEMP_BUSY) (adsSample ADS1x1x.State.BUSY)
        (by decide) (by decide)).2.2.1)⟩

/-- Claim C3: for both devices, `read` in any state other than AVAILABLE
returns FAILED_BUSY and does not mutate the output parameters; in AVAILABLE
it copies the latest values into the outputs, returns SUCCESS and moves to
IDLE, so a second consecutive `read` fails with FAILED_BUSY. -/
theorem claim_C3 (dP : DPS310.Device) (dA : ADS1x1x.Device) (t p : ℚ) (v : Nat)
    (dP2 : DPS310.Device) (dA2 : ADS1x1x.Device)
    (hP : dP.state ≠ DPS310.State.AVAILABLE)
    (hA : dA.state ≠ ADS1x1x.State.AVAILABLE)
    (hP2 : dP2.state = DPS310.State.AVAILABLE)
    (hA2 : dA2.state = ADS1x1x.State.AVAILABLE) :
    ((DPS310.read dP t p).1 = DPS310.Result.FAILED_BUSY
      ∧ (DPS310.read dP t p).2.2 = (t, p)
      ∧ (DPS310.read dP t p).2.1.state = dP.state)
    ∧ ((ADS1x1x.read dA v).1 = ADS1x1x.Result.FAILED_BUSY
      ∧ (ADS1x1x.read dA v).2.2 = v
      ∧ (ADS1x1x.read dA v).2.1.state = dA.state)
    ∧ ((DPS310.read dP2 t p).1 = DPS310.Result.SUCCESS
      ∧ (DPS310.read dP2 t p).2.2
          = (dP2.values.temperature, dP2.values.pressure)
      ∧ (DPS310.read dP2 t p).2.1.state = DPS310.State.IDLE
      ∧ (DPS310.read (DPS310.read dP2 t p).2.1 t p).1
          = DPS310.Result.FAILED_BUSY)
    ∧ ((ADS1x1x.read dA2 v).1 = ADS1x1x.Result.SUCCESS
      ∧ (ADS1x1x.read dA2 v).2.2 = dA2.values.voltage
      ∧ (ADS1x1x.read dA2 v).2.1.state = ADS1x1x.State.IDLE
      ∧ (ADS1x1x.read (ADS1x1x.read dA2 v).2.1 v).1
          = ADS1x1x.Result.FAILED_BUSY) := by
  refine ⟨?_, ?_, ?_, ?_⟩
  · simp [DPS310.read, hP, DPS310.setError]
  · simp [ADS1x1x.read, hA, ADS1x1x.setError]
  · simp [DPS310.read, hP2, DPS310.setAs, DPS310.setError]
  · simp [ADS1x1x.read, hA2, ADS1x1x.setAs, ADS1x1x.setError]

/-- Closed witness for claim C3, at devices in TEMP_BUSY / BUSY and in
AVAILABLE. -/
theorem claim_C3_witness :
    ((dpsSample DPS310.State.TEMP_BUSY).state ≠ DPS310.State.AVAILABLE
      ∧ (adsSample ADS1x1x.State.BUSY).state ≠ ADS1x1x.State.AVAILABLE
      ∧ (dpsSample DPS310.State.AVAILABLE).state = DPS310.State.AVAILABLE
      ∧ (adsSample ADS1x1x.State.AVAILABLE).state = ADS1x1x.State.AVAILABLE)
    ∧ ((DPS310.read (dpsSample DPS310.State.TEMP_BUSY) 3 4).1
          = DPS310.Result.FAILED_BUSY
      ∧ (DPS310.read (dpsSample DPS310.State.TEMP_BUSY) 3 4).2.2 = (3, 4)
      ∧ (ADS1x1x.read (adsSample ADS1x1x.State.BUSY) 7).1
          = ADS1x1x.Result.FAILED_BUSY
      ∧ (ADS1x1x.read (adsSample ADS1x1x.State.BUSY) 7).2.2 = 7
      ∧ (DPS310.read (dpsSample DPS310.State.AVAILABLE) 3 4).2.2
          = ((dpsSample DPS310.State.AVAILABLE).values.temperature,
             (dpsSample DPS310.State.AVAILABLE).values.pressure)
      ∧ (DPS310.read
            (DPS310.read (dpsSample DPS310.State.AVAILABLE) 3 4).2.1 3 4).1
          = DPS310.Result.FAILED_BUSY
      ∧ (ADS1x1x.read
            (ADS1x1x.read (adsSample ADS1x1x.State.AVAILABLE) 7).2.1 7).1
          = ADS1x1x.Result.FAILED_BUSY) :=
  ⟨⟨by decide, by decide, by decide, by decide⟩,
    (claim_C3 (dpsSample DPS310.State.TEMP_BUSY) (adsSample ADS1x1x.State.BUSY)
      3 4 7 (dpsSample DPS310.State.AVAILABLE) (adsSample ADS1x1x.State.AVAILABLE)
      (by decide) (by decide) (by decide) (by decide)).1.1,
    (claim_C3 (dpsSample DPS310.State.TEMP_BUSY) (adsSample ADS1x1x.State.BUSY)
      3 4 7 (dpsSample DPS310.State.AVAILABLE) (adsSample ADS1x1x.State.AVAILABLE)
      (by decide) (by decide) (by decide) (by decide)).1.2.1,
    (claim_C3 (dpsSample DPS310.State.TEMP_BUSY) (adsSample ADS1x1x.State.BUSY)
      3 4 7 (dpsSample DPS310.State.AVAILABLE) (adsSample ADS1x1x.State.AVAILABLE)
      (by decide) (by decide) (by decide) (by decide)).2.1.1,
    (claim_C3 (dpsSample DPS310.State.TEMP_BUSY) (adsSample ADS1x1x.State.BUSY)
      3 4 7 (dpsSample DPS310.State.AVAILABLE) (adsSample ADS1x1x.State.AVAILABLE)
      (by decide) (by decide) (by decide) (by decide)).2.1.2.1,
    (claim_C3 (dpsSample DPS310.State.TEMP_BUSY) (adsSample ADS1x1x.State.BUSY)
      3 4 7 (dpsSample DPS310.State.AVAILABLE) (adsSample ADS1x1x.State.AVAILABLE)
      (by decide) (by decide) (by decide) (by decide)).2.2.1.2.1,
    (claim_C3 (dpsSample DPS310.State.TEMP_BUSY) (adsSample ADS1x1x.State.BUSY)
      3 4 7 (dpsSample DPS310.State.AVAILABLE) (adsSample ADS1x1x.State.AVAILABLE)
      (by decide) (by decide) (by decide) (by decide)).2.2.1.2.2.2,
    (claim_C3 (dpsSample DPS310.State.TEMP_BUSY) (adsSample ADS1x1x.State.BUSY)
      3 4 7 (dpsSample DPS310.State.AVAILABLE) (adsSample ADS1x1x.State.AVAILABLE)
      (by decide) (by decide) (by decide) (by decide)).2.2.2.2.2.2⟩

/-- Claim C5 (code evaluation at the failing input): with the device in
TEMP_BUSY (resp. PRES_BUSY) and the MEAS_CFG status read failing, the state
after `update()` is TEMP_COMPLETE (resp. PRES_COMPLETE) — not TEMP_ERROR
(resp. PRES_ERROR) — whenever the uninitialized `meas_cfg` local happens to
hold a residual byte with the ready bit set (here `0x30`): the source checks
the ready bit even after the failed read and overwrites the error
transition.  With a residual byte of `0` the claimed TEMP_ERROR does occur,
confirming that the error transition is the intent. -/
theorem claim_C5_code_eval :
    (DPS310.update busStatusReadFails (dpsSample DPS310.State.TEMP_BUSY)).1.state
        = DPS310.State.TEMP_COMPLETE
    ∧ (DPS310.update busStatusReadFails (dpsSample DPS310.State.PRES_BUSY)).1.state
        = DPS310.State.PRES_COMPLETE
    ∧ (DPS310.update busCleanReadFails (dpsSample DPS310.State.TEMP_BUSY)).1.state
        = DPS310.State.TEMP_ERROR
    ∧ (DPS310.update busCleanReadFails (dpsSample DPS310.State.PRES_BUSY)).1.state
        = DPS310.State.PRES_ERROR := by
  refine ⟨?_, ?_, ?_, ?_⟩ <;> decide

/-- Claim C6: every error state (TEMP_ERROR and PRES_ERROR for the DPS310,
ERROR for the ADC) transitions unconditionally to IDLE on the next `update()`
call, with no bus I/O and no other change to the device (the failure is not
surfaced to the caller synchronously). -/
theorem claim_C6 (bus : Bus) (now : Nat) (d1 : DPS310.Device)
    (d2 : DPS310.Device) (d3 : ADS1x1x.Device)
    (h1 : d1.state = DPS310.State.TEMP_ERROR)
    (h2 : d2.state = DPS310.State.PRES_ERROR)
    (h3 : d3.state = ADS1x1x.State.ERROR) :
    DPS310.update bus d1 = (DPS310.setAs d1 DPS310.State.IDLE, [])
    ∧ DPS310.update bus d2 = (DPS310.setAs d2 DPS310.State.IDLE, [])
    ∧ ADS1x1x.update bus now d3 = (ADS1x1x.setAs d3 ADS1x1x.State.IDLE, []) := by
  refine ⟨?_, ?_, ?_⟩
  · simp [DPS310.update, h1]
  · simp [DPS310.update, h2]
  · simp [ADS1x1x.update, h3]

/-- Closed witness for claim C6 at concrete error-state devices. -/
theorem claim_C6_witness :
    ((dpsSample DPS310.State.TEMP_ERROR).state = DPS310.State.TEMP_ERROR
      ∧ (dpsSample DPS310.State.PRES_ERROR).state = DPS310.State.PRES_ERROR
      ∧ (adsSample ADS1x1x.State.ERROR).state = ADS1x1x.State.ERROR)
    ∧ DPS310.update busAllOk (dpsSample DPS310.State.TEMP_ERROR)
        = (DPS310.setAs (dpsSample DPS310.State.TEMP_ERROR) DPS310.State.IDLE, [])
    ∧ DPS310.update busAllOk (dpsSample DPS310.State.PRES_ERROR)
        = (DPS310.setAs (dpsSample DPS310.State.PRES_ERROR) DPS310.State.IDLE, [])
    ∧ ADS1x1x.update busAllOk 0 (adsSample ADS1x1x.State.ERROR)
        = (ADS1x1x.setAs (adsSample ADS1x1x.State.ERROR) ADS1x1x.State.IDLE, []) :=
  ⟨⟨by decide, by decide, by decide⟩,
    (claim_C6 busAllOk 0 (dpsSample DPS310.State.TEMP_ERROR)
      (dpsSample DPS310.State.PRES_ERROR) (adsSample ADS1x1x.State.ERROR)
      (by decide) (by decide) (by decide)).1,
    (claim_C6 busAllOk 0 (dpsSample DPS310.State.TEMP_ERROR)
      (dpsSample DPS310.State.PRES_ERROR) (adsSample ADS1x1x.State.ERROR)
      (by decide) (by decide) (by decide)).2.1,
    (claim_C6 busAllOk 0 (dpsSample DPS310.State.TEMP_ERROR)
      (dpsSample DPS310.State.PRES_ERROR) (adsSample ADS1x1x.State.ERROR)
      (by decide) (by decide) (by decide)).2.2⟩

/-- Claim C8: for both devices the AND combinator on results yields SUCCESS
iff both operands are SUCCESS, the OR combinator yields SUCCESS iff at least
one operand is SUCCESS, and in every other case both yield FAILED_UNKNOWN; in
particular combining two distinct specific failures collapses to
FAILED_UNKNOWN. -/
theorem claim_C8 :
    (∀ lhs rhs : DPS310.Result,
      (DPS310.resultAnd lhs rhs = DPS310.Result.SUCCESS
        ↔ (lhs = DPS310.Result.SUCCESS ∧ rhs = DPS310.Result.SUCCESS))
      ∧ (DPS310.resultAnd lhs rhs = DPS310.Result.SUCCESS
        ∨ DPS310.resultAnd lhs rhs = DPS310.Result.FAILED_UNKNOWN)
      ∧ (DPS310.resultOr lhs rhs = DPS310.Result.SUCCESS
        ↔ (lhs = DPS310.Result.SUCCESS ∨ rhs = DPS310.Result.SUCCESS))
      ∧ (DPS310.resultOr lhs rhs = DPS310.Result.SUCCESS
        ∨ DPS310.resultOr lhs rhs = DPS310.Result.FAILED_UNKNOWN))
    ∧ (∀ lhs rhs : ADS1x1x.Result,
      (ADS1x1x.resultAnd lhs rhs = ADS1x1x.Result.SUCCESS
        ↔ (lhs = ADS1x1x.Result.SUCCESS ∧ rhs = ADS1x1x.Result.SUCCESS))
      ∧ (ADS1x1x.resultAnd lhs rhs = ADS1x1x.Result.SUCCESS
        ∨ ADS1x1x.resultAnd lhs rhs = ADS1x1x.Result.FAILED_UNKNOWN)
      ∧ (ADS1x1x.resultOr lhs rhs = ADS1x1x.Result.SUCCESS
        ↔ (lhs = ADS1x1x.Result.SUCCESS ∨ rhs = ADS1x1x.Result.SUCCESS))
      ∧ (ADS1x1x.resultOr lhs rhs = ADS1x1x.Result.SUCCESS
        ∨ ADS1x1x.resultOr lhs rhs = ADS1x1x.Result.FAILED_UNKNOWN))
    ∧ DPS310.resultAnd DPS310.Result.FAILED_NOT_RESPONDING
        DPS310.Result.FAILED_BUSY = DPS310.Result.FAILED_UNKNOWN
    ∧ DPS310.resultOr DPS310.Result.FAILED_NOT_RESPONDING
        DPS310.Result.FAILED_BUSY = DPS310.Result.FAILED_UNKNOWN
    ∧ ADS1x1x.resultAnd ADS1x1x.Result.FAILED_NOT_RESPONDING
        ADS1x1x.Result.FAILED_BUSY = ADS1x1x.Result.FAILED_UNKNOWN
    ∧ ADS1x1x.resultOr ADS1x1x.Result.FAILED_NOT_RESPONDING
        ADS1x1x.Result.FAILED_BUSY = ADS1x1x.Result.FAILED_UNKNOWN := by
  refine ⟨?_, ?_, ?_, ?_, ?_, ?_⟩ <;> decide

/-- Claim C9: every `ADS1x1x::update()` call made in COMPLETE ends in
AVAILABLE — even when the conversion-register read fails, in which case the
recorded error is FAILED_NOT_RESPONDING but the ERROR transition is
overwritten by the unconditional transition to AVAILABLE within the same
call, so `available()` reports true regardless. -/
theorem claim_C9 (bus : Bus) (now : Nat) (d : ADS1x1x.Device)
    (h : d.state = ADS1x1x.State.COMPLETE) :
    (ADS1x1x.update bus now d).1.state = ADS1x1x.State.AVAILABLE
    ∧ ADS1x1x.available (ADS1x1x.update bus now d).1 = true
    ∧ (bus.read ADS1x1x.regCONVERSION = none →
        (ADS1x1x.update bus now d).1.error
          = ADS1x1x.Result.FAILED_NOT_RESPONDING) := by
  cases hr : bus.read ADS1x1x.regCONVERSION <;>
    cases hdt : d.device_type <;>
      simp [ADS1x1x.update, h, hdt, hr, ADS1x1x.readWord, ADS1x1x.setAs,
        ADS1x1x.setError, ADS1x1x.available]

/-- Closed witness for claim C9, at a COMPLETE device on a bus whose
conversion-register read fails. -/
theorem claim_C9_witness :
    (adsSample ADS1x1x.State.COMPLETE).state = ADS1x1x.State.COMPLETE
    ∧ ((ADS1x1x.update busCleanReadFails 0
          (adsSample ADS1x1x.State.COMPLETE)).1.state = ADS1x1x.State.AVAILABLE
      ∧ ADS1x1x.available
          (ADS1x1x.update busCleanReadFails 0
            (adsSample ADS1x1x.State.COMPLETE)).1 = true
      ∧ (ADS1x1x.update busCleanReadFails 0
            (adsSample ADS1x1x.State.COMPLETE)).1.error
          = ADS1x1x.Result.FAILED_NOT_RESPONDING) :=
  ⟨by decide,
    (claim_C9 busCleanReadFails 0 (adsSample ADS1x1x.State.COMPLETE)
      (by decide)).1,
    (claim_C9 busCleanReadFails 0 (adsSample ADS1x1x.State.COMPLETE)
      (by decide)).2.1,
    (claim_C9 busCleanReadFails 0 (adsSample ADS1x1x.State.COMPLETE)
      (by decide)).2.2 rfl⟩

/-- Claim C4: for the ADC in BUSY with configured data rate `r` SPS,
`update()` moves to COMPLETE exactly when the elapsed milliseconds since the
request timestamp reach `ceil(1000 / r)` (the conversion delay), performs no
bus I/O in BUSY, and otherwise leaves the device unchanged; the delay is the
ceiling of `1000 / r` (characterized by `1000 ≤ r * delay` and
`r * (delay - 1) < 1000`), and at 128 SPS it is exactly 8 ms. -/
theorem claim_C4 (bus : Bus) (now : Nat) (d : ADS1x1x.Device)
    (h : d.state = ADS1x1x.State.BUSY)
    (h0 : d.latest_request_time ≤ now)
    (h1 : now - d.latest_request_time < 2 ^ 32)
    (h2 : now < 2 ^ 32) :
    ((ADS1x1x.update bus now d).1.state = ADS1x1x.State.COMPLETE
      ↔ ADS1x1x.getConversionDelay d.settings.data_rate
          ≤ now - d.latest_request_time)
    ∧ (¬ ADS1x1x.getConversionDelay d.settings.data_rate
          ≤ now - d.latest_request_time →
        ADS1x1x.update bus now d = (d, []))
    ∧ (ADS1x1x.update bus now d).2 = []
    ∧ (∀ dr : ADS1x1x.DataRate,
        1000 ≤ dr.use * ADS1x1x.getConversionDelay dr
        ∧ dr.use * (ADS1x1x.getConversionDelay dr - 1) < 1000)
    ∧ ADS1x1x.getConversionDelay ADS1x1x.DataRate.DR_0128SPS = 8
    ∧ (d.settings.data_rate = ADS1x1x.DataRate.DR_0128SPS →
        ((ADS1x1x.update bus now d).1.state = ADS1x1x.State.COMPLETE
          ↔ 8 ≤ now - d.latest_request_time)) := by
  have hw : wsub32 now d.latest_request_time = now - d.latest_request_time := by
    unfold wsub32
    omega
  have hupd :
      ADS1x1x.update bus now d =
        if ADS1x1x.getConversionDelay d.settings.data_rate ≤
            now - d.latest_request_time then
          ({ ADS1x1x.setAs d ADS1x1x.State.COMPLETE with
              latest_request_time := 0 }, [])
        else (d, []) := by
    unfold ADS1x1x.update
    rw [h, hw]
  constructor
  · rw [hupd]
    split
    · simp [ADS1x1x.setAs]
      assumption
    · simp [h]
      omega
  refine ⟨?_, ?_, ?_, ?_, ?_⟩
  · intro hnot
    rw [hupd, if_neg hnot]
  · rw [hupd]
    split <;> rfl
  · intro dr
    cases dr <;> exact ⟨by decide, by decide⟩
  · decide
  · intro hdr
    have h8 : ADS1x1x.getConversionDelay ADS1x1x.DataRate.DR_0128SPS = 8 := by
      decide
    rw [hupd, hdr, h8]
    split
    · simp [ADS1x1x.setAs]
      assumption
    · simp [h]
      omega

/-- Closed witness for claim C4: the sample ADC (128 SPS, request at 100 ms)
polled at 108 ms has reached the 8 ms conversion delay and is COMPLETE. -/
theorem claim_C4_witness :
    ((adsSample ADS1x1x.State.BUSY).state = ADS1x1x.State.BUSY
      ∧ (adsSample ADS1x1x.State.BUSY).latest_request_time ≤ 108
      ∧ 108 - (adsSample ADS1x1x.State.BUSY).latest_request_time < 2 ^ 32
      ∧ 108 < 2 ^ 32)
    ∧ ((ADS1x1x.update busAllOk 108 (adsSample ADS1x1x.State.BUSY)).1.state
          = ADS1x1x.State.COMPLETE
        ↔ ADS1x1x.getConversionDelay
            (adsSample ADS1x1x.State.BUSY).settings.data_rate
          ≤ 108 - (adsSample ADS1x1x.State.BUSY).latest_request_time)
    ∧ ADS1x1x.getConversionDelay ADS1x1x.DataRate.DR_0128SPS = 8 :=
  ⟨⟨by decide, by decide, by decide, by decide⟩,
    (claim_C4 busAllOk 108 (adsSample ADS1x1x.State.BUSY)
      (by decide) (by decide) (by decide) (by decide)).1,
    (claim_C4 busAllOk 108 (adsSample ADS1x1x.State.BUSY)
      (by decide) (by decide) (by decide) (by decide)).2.2.2.2.1⟩

/-- Claim C10: for both devices, `request()` invoked from IDLE whose register
I/O fails (the configuration read or the configuration write) returns
FAILED_NOT_RESPONDING and leaves the state at IDLE; for the ADC the request
timestamp is also untouched, since state transition and timestamp recording
happen only after all register I/O succeeded. -/
theorem claim_C10 (busP : Bus) (busA : Bus) (now : Nat)
    (cc : ADS1x1x.ChannelConfig) (dP : DPS310.Device) (dA : ADS1x1x.Device)
    (hP : dP.state = DPS310.State.IDLE)
    (hA : dA.state = ADS1x1x.State.IDLE)
    (hfP : busP.read DPS310.regMEAS_CFG = none
      ∨ busP.write DPS310.regMEAS_CFG = false)
    (hfA : busA.read ADS1x1x.regCONFIG = none
      ∨ busA.write ADS1x1x.regCONFIG = false) :
    ((DPS310.request busP dP).1 = DPS310.Result.FAILED_NOT_RESPONDING
      ∧ (DPS310.request busP dP).2.1.state = DPS310.State.IDLE)
    ∧ ((ADS1x1x.request busA now dA cc).1
          = ADS1x1x.Result.FAILED_NOT_RESPONDING
      ∧ (ADS1x1x.request busA now dA cc).2.1.state = ADS1x1x.State.IDLE
      ∧ (ADS1x1x.request busA now dA cc).2.1.latest_request_time
          = dA.latest_request_time) := by
  constructor
  · cases hr : busP.read DPS310.regMEAS_CFG with
    | none =>
        simp [DPS310.request, hP, DPS310.applyOperationMode, hr, DPS310.setError]
    | some m =>
        rcases hfP with hfP | hfP
        · rw [hfP] at hr
          exact absurd hr (by simp)
        · simp [DPS310.request, hP, DPS310.applyOperationMode, hr, hfP,
            DPS310.setError]
  · cases hr : busA.read ADS1x1x.regCONFIG with
    | none =>
        simp [ADS1x1x.request, hA, hr, ADS1x1x.setError]
    | some m =>
        rcases hfA with hfA | hfA
        · rw [hfA] at hr
          exact absurd hr (by simp)
        · simp [ADS1x1x.request, hA, hr, hfA, ADS1x1x.setError]

/-- Closed witness for claim C10: IDLE devices on a bus whose register reads
fail. -/
theorem claim_C10_witness :
    ((dpsSample DPS310.State.IDLE).state = DPS310.State.IDLE
      ∧ (adsSample ADS1x1x.State.IDLE).state = ADS1x1x.State.IDLE
      ∧ busCleanReadFails.read DPS310.regMEAS_CFG = none
      ∧ busCleanReadFails.read ADS1x1x.regCONFIG = none)
    ∧ ((DPS310.request busCleanReadFails (dpsSample DPS310.State.IDLE)).1
          = DPS310.Result.FAILED_NOT_RESPONDING
      ∧ (DPS310.request busCleanReadFails (dpsSample DPS310.State.IDLE)).2.1.state
          = DPS310.State.IDLE)
    ∧ ((ADS1x1x.request busCleanReadFails 55 (adsSample ADS1x1x.State.IDLE)
          ADS1x1x.ChannelConfig.AIN2_GND).1
          = ADS1x1x.Result.FAILED_NOT_RESPONDING
      ∧ (ADS1x1x.request busCleanReadFails 55 (adsSample ADS1x1x.State.IDLE)
          ADS1x1x.ChannelConfig.AIN2_GND).2.1.latest_request_time
          = (adsSample ADS1x1x.State.IDLE).latest_request_time) :=
  ⟨⟨by decide, by decide, by decide, by decide⟩,
    (claim_C10 busCleanReadFails busCleanReadFails 55
      ADS1x1x.ChannelConfig.AIN2_GND (dpsSample DPS310.State.IDLE)
      (adsSample ADS1x1x.State.IDLE) (by decide) (by decide)
      (Or.inl (by decide)) (Or.inl (by decide))).1,
    ⟨(claim_C10 busCleanReadFails busCleanReadFails 55
      ADS1x1x.ChannelConfig.AIN2_GND (dpsSample DPS310.State.IDLE)
      (adsSample ADS1x1x.State.IDLE) (by decide) (by decide)
      (Or.inl (by decide)) (Or.inl (by decide))).2.1,
    (claim_C10 busCleanReadFails busCleanReadFails 55
      ADS1x1x.ChannelConfig.AIN2_GND (dpsSample DPS310.State.IDLE)
      (adsSample ADS1x1x.State.IDLE) (by decide) (by decide)
      (Or.inl (by decide)) (Or.inl (by decide))).2.2.2⟩⟩

/-- Claim C1: when `DPS310::update()` runs in TEMP_COMPLETE (and the three
raw-byte reads succeed) it decodes the 24-bit two's-complement raw value,
scales it by the temperature precision's scale factor into `t_raw_scaled`,
and computes `temperature = 0.5 * c0 + c1 * t_raw_scaled`; when it runs in
PRES_COMPLETE it likewise computes `p_raw_scaled` and then
`pressure = (c00 + p * (c10 + p * (c20 + p * c30)) + t * (c01 + p * (c11 + p
* c21))) / 100` with `p = p_raw_scaled` and `t` the `t_raw_scaled` retained
from the prior temperature phase, and moves the state to AVAILABLE. -/
theorem claim_C1 (busT : Bus) (busP : Bus) (dT : DPS310.Device)
    (dP : DPS310.Device) (tmsb tmid tlsb pmsb pmid plsb : Nat)
    (hT : dT.state = DPS310.State.TEMP_COMPLETE)
    (hT2 : busT.read DPS310.regTMP_B2 = some tmsb)
    (hT1 : busT.read DPS310.regTMP_B1 = some tmid)
    (hT0 : busT.read DPS310.regTMP_B0 = some tlsb)
    (hP : dP.state = DPS310.State.PRES_COMPLETE)
    (hP2 : busP.read DPS310.regPRS_B2 = some pmsb)
    (hP1 : busP.read DPS310.regPRS_B1 = some pmid)
    (hP0 : busP.read DPS310.regPRS_B0 = some plsb) :
    ((DPS310.update busT dT).1.values.t_raw_scaled
        = (twosComplement ((tmsb <<< 16) ||| (tmid <<< 8) ||| tlsb) 24 : ℚ)
          / DPS310.getScaleFactorFor dT.settings.temperature_precision
      ∧ (DPS310.update busT dT).1.values.temperature
        = (1 / 2 : ℚ) * (dT.coef.c0 : ℚ)
          + (dT.coef.c1 : ℚ) * (DPS310.update busT dT).1.values.t_raw_scaled)
    ∧ ((DPS310.update busP dP).1.values.p_raw_scaled
        = (twosComplement ((pmsb <<< 16) ||| (pmid <<< 8) ||| plsb) 24 : ℚ)
          / DPS310.getScaleFactorFor dP.settings.pressure_precision
      ∧ (DPS310.update busP dP).1.values.pressure
        = ((dP.coef.c00 : ℚ)
            + (DPS310.update busP dP).1.values.p_raw_scaled
              * ((dP.coef.c10 : ℚ)
                + (DPS310.update busP dP).1.values.p_raw_scaled
                  * ((dP.coef.c20 : ℚ)
                    + (DPS310.update busP dP).1.values.p_raw_scaled
                      * (dP.coef.c30 : ℚ)))
            + dP.values.t_raw_scaled
              * ((dP.coef.c01 : ℚ)
                + (DPS310.update busP dP).1.values.p_raw_scaled
                  * ((dP.coef.c11 : ℚ)
                    + (DPS310.update busP dP).1.values.p_raw_scaled
                      * (dP.coef.c21 : ℚ))))
          / 100
      ∧ (DPS310.update busP dP).1.state = DPS310.State.AVAILABLE) := by
  constructor
  · simp only [DPS310.update, hT, DPS310.readByte, hT2, hT1, hT0]
    simp [DPS310.setAs, applyOperationMode_values]
    constructor
    · split <;> simp [DPS310.setAs, applyOperationMode_values]
    · split <;> simp [DPS310.setAs, applyOperationMode_values]
  · simp only [DPS310.update, hP, DPS310.readByte, hP2, hP1, hP0]
    simp [DPS310.setAs]

/-- Closed witness for claim C1: sample devices in TEMP_COMPLETE and
PRES_COMPLETE on a bus delivering fixed raw bytes. -/
theorem claim_C1_witness :
    ((dpsSample DPS310.State.TEMP_COMPLETE).state = DPS310.State.TEMP_COMPLETE
      ∧ busBytes.read DPS310.regTMP_B2 = some 0x12
      ∧ busBytes.read DPS310.regTMP_B1 = some 0x34
      ∧ busBytes.read DPS310.regTMP_B0 = some 0x56
      ∧ (dpsSample DPS310.State.PRES_COMPLETE).state = DPS310.State.PRES_COMPLETE
      ∧ busBytes.read DPS310.regPRS_B2 = some 0xFE
      ∧ busBytes.read DPS310.regPRS_B1 = some 0xDC
      ∧ busBytes.read DPS310.regPRS_B0 = some 0xBA)
    ∧ ((DPS310.update busBytes (dpsSample DPS310.State.TEMP_COMPLETE)).1.values.temperature
        = (1 / 2 : ℚ) * ((dpsSample DPS310.State.TEMP_COMPLETE).coef.c0 : ℚ)
          + ((dpsSample DPS310.State.TEMP_COMPLETE).coef.c1 : ℚ)
            * (DPS310.update busBytes
                (dpsSample DPS310.State.TEMP_COMPLETE)).1.values.t_raw_scaled)
    ∧ (DPS310.update busBytes (dpsSample DPS310.State.PRES_COMPLETE)).1.state
        = DPS310.State.AVAILABLE :=
  ⟨⟨by decide, by decide, by decide, by decide, by decide, by decide, by decide,
      by decide⟩,
    (claim_C1 busBytes busBytes (dpsSample DPS310.State.TEMP_COMPLETE)
      (dpsSample DPS310.State.PRES_COMPLETE) 0x12 0x34 0x56 0xFE 0xDC 0xBA
      (by decide) (by decide) (by decide) (by decide) (by decide) (by decide)
      (by decide) (by decide)).1.2,
    (claim_C1 busBytes busBytes (dpsSample DPS310.State.TEMP_COMPLETE)
      (dpsSample DPS310.State.PRES_COMPLETE) 0x12 0x34 0x56 0xFE 0xDC 0xBA
      (by decide) (by decide) (by decide) (by decide) (by decide) (by decide)
      (by decide) (by decide)).2.2.2⟩

/-- Arithmetic characterization of `twosComplement` on in-range bit patterns
for the bit lengths used by the drivers: for `raw < 2 ^ N` the result is
`raw` when the sign bit is clear and `raw - 2 ^ N` when it is set. -/
theorem twosComplement_char (N : Nat)
    (hN : N = 12 ∨ N = 16 ∨ N = 20 ∨ N = 24) (raw : Nat) (h : raw < 2 ^ N) :
    twosComplement raw N =
      if raw < 2 ^ (N - 1) then (raw : Int) else (raw : Int) - 2 ^ N := by
  have key : ∀ q : Nat, 2 ^ 32 - 2 ^ N = 2 ^ N * q →
      raw ||| (2 ^ 32 - 2 ^ N) = 2 ^ N * q + raw := by
    intro q hq
    rw [hq, Nat.lor_comm, ← Nat.mul_add_lt_is_or h]
  rcases hN with hN | hN | hN | hN <;> subst hN <;>
    unfold twosComplement toSigned32 <;>
    rw [Nat.testBit_to_div_mod, Nat.and_pow_two_sub_one_eq_mod]
  · rw [key 1048575 (by norm_num)]
    simp only [decide_eq_true_eq]
    split_ifs <;> omega
  · rw [key 65535 (by norm_num)]
    simp only [decide_eq_true_eq]
    split_ifs <;> omega
  · rw [key 4095 (by norm_num)]
    simp only [decide_eq_true_eq]
    split_ifs <;> omega
  · rw [key 255 (by norm_num)]
    simp only [decide_eq_true_eq]
    split_ifs <;> omega

/-- Claim C7: `twosComplement` inverts fixed-width two's-complement encoding:
for every bit length N in {12, 16, 20, 24} and every signed value v with
`-2 ^ (N - 1) ≤ v < 2 ^ (N - 1)`, decoding the low N bits of v (its
residue modulo `2 ^ N`) with `twosComplement _ N` returns v; in particular a
raw value with the top bit set is sign-extended:
`twosComplement 0x800000 24 = -8388608`. -/
theorem claim_C7 :
    (∀ N : Nat, (N = 12 ∨ N = 16 ∨ N = 20 ∨ N = 24) →
      ∀ v : Int, -(2 ^ (N - 1)) ≤ v → v < 2 ^ (N - 1) →
        twosComplement (v % (2 ^ N : Int)).toNat N = v)
    ∧ twosComplement 0x800000 24 = -8388608 := by
  constructor
  · intro N hN v hlo hhi
    rcases hN with hN | hN | hN | hN <;> subst hN
    · rw [twosComplement_char 12 (by tauto) _ (by omega)]
      split_ifs <;> omega
    · rw [twosComplement_char 16 (by tauto) _ (by omega)]
      split_ifs <;> omega
    · rw [twosComplement_char 20 (by tauto) _ (by omega)]
      split_ifs <;> omega
    · rw [twosComplement_char 24 (by tauto) _ (by omega)]
      split_ifs <;> omega
  · decide

/-- Closed witness for claim C7 at N = 24 and v = -8388608 (the most negative
24-bit value, whose low 24 bits are 0x800000). -/
theorem claim_C7_witness :
    ((24 : Nat) = 12 ∨ (24 : Nat) = 16 ∨ (24 : Nat) = 20 ∨ (24 : Nat) = 24)
    ∧ (-(2 ^ (24 - 1)) ≤ (-8388608 : Int))
    ∧ ((-8388608 : Int) < 2 ^ (24 - 1))
    ∧ twosComplement ((-8388608 : Int) % (2 ^ 24 : Int)).toNat 24 = -8388608 :=
  ⟨by decide, by decide, by decide,
    claim_C7.1 24 (by decide) (-8388608) (by decide) (by decide)⟩

end ActProps
